import Mathlib

/-!
Shallow embedding of `src/prefect/tasks/airbyte/airbyte.py`
(class `AirbyteConnectionTask`).

The task orchestrates five HTTP endpoints of an Airbyte server.  The
embedding models the server as an oracle (`Server`) giving, for each
endpoint, either a decoded HTTP response (status code and JSON body) or a
transport-level failure (`requests.RequestException`).  The job-status
endpoint is polled repeatedly, so its oracle is indexed by the poll number.

Every operation returns, besides its result, the list of HTTP requests it
issued (`ApiRequest`), so that the theorems can speak about which calls
were made.  Python exceptions are modelled by the `Err` type; untyped
Python errors (KeyError / TypeError on a missing JSON key or on unpacking
`None` into a tuple) are modelled by `Err.keyError` and `Err.noneUnpack`.
The polling loop of `run` is modelled with an explicit fuel argument: a
result of `none` means the loop is still running after `fuel` polls.
-/

namespace Airbyte

/-- JSON values, as produced by `response.json()`. -/
inductive Json where
  | null
  | bool (b : Bool)
  | num (n : Int)
  | str (s : String)
  | arr (xs : List Json)
  | obj (kvs : List (String × Json))

/-- Python truthiness of a JSON value (`if not x`). -/
def Json.truthy : Json → Bool
  | .null => false
  | .bool b => b
  | .num n => n != 0
  | .str s => s != ""
  | .arr xs => !xs.isEmpty
  | .obj kvs => !kvs.isEmpty

/-- First binding of a key in an association list (Python dict lookup). -/
def getKey : List (String × Json) → String → Option Json
  | [], _ => none
  | (k2, v) :: rest, k => if k2 = k then some v else getKey rest k

/-- Dictionary lookup `d[k]`; `none` models a Python KeyError (or a
TypeError when the value is not a dict). -/
def Json.get? (j : Json) (k : String) : Option Json :=
  match j with
  | .obj kvs => getKey kvs k
  | _ => none

/-- Python `"k" in d`. -/
def Json.hasKey (j : Json) (k : String) : Bool := (j.get? k).isSome

/-- Python `j == s` where `s` is a string literal: only true for equal
strings, false for every other JSON value. -/
def Json.isStr (j : Json) (s : String) : Bool :=
  match j with
  | .str t => t == s
  | _ => false

/-! ### `uuid.UUID(connection_id)` (CPython `uuid.py`, hex path)

`uuid.UUID(hex)` does
`hex = hex.replace('urn:', '').replace('uuid:', '')`,
`hex = hex.strip('\x7b\x7d').replace('-', '')`, rejects unless
`len(hex) == 32`, then runs `int(hex, 16)`.  With exactly 32 characters the
value is automatically in `[0, 2^128)` (hyphens, hence minus signs, were
removed), so acceptance reduces to `int(hex, 16)` parsing. -/

/-- Hexadecimal digit as accepted by Python `int(s, 16)`. -/
def isHexDigit (c : Char) : Bool :=
  ('0' ≤ c && c ≤ '9') || ('a' ≤ c && c ≤ 'f') || ('A' ≤ c && c ≤ 'F')

/-- ASCII whitespace stripped by Python `int()`. -/
def pyIsSpace (c : Char) : Bool :=
  c = ' ' || c = '\t' || c = '\n' || c = '\r' || c = '\x0b' || c = '\x0c'

/-- Tail of the Python integer-literal digit grammar: `('_'? digit)*`. -/
def pyHexTail : List Char → Bool
  | [] => true
  | '_' :: [] => false
  | '_' :: c :: rest => isHexDigit c && pyHexTail rest
  | c :: rest => isHexDigit c && pyHexTail rest

/-- Python hex digit run: `digit ('_'? digit)*`. -/
def pyHexBody : List Char → Bool
  | [] => false
  | c :: rest => isHexDigit c && pyHexTail rest

/-- Whether `int(s, 16)` succeeds on `s`: optional surrounding whitespace,
optional sign, optional `0x`/`0X` prefix (an underscore may follow the
prefix), then a digit run with single underscores between digits. -/
def pyIntHexOk (cs : List Char) : Bool :=
  let cs1 := cs.dropWhile pyIsSpace
  let cs2 := (cs1.reverse.dropWhile pyIsSpace).reverse
  let cs3 :=
    match cs2 with
    | '+' :: rest => rest
    | '-' :: rest => rest
    | rest => rest
  match cs3 with
  | '0' :: 'x' :: '_' :: rest => pyHexBody rest
  | '0' :: 'X' :: '_' :: rest => pyHexBody rest
  | '0' :: 'x' :: rest => pyHexBody rest
  | '0' :: 'X' :: rest => pyHexBody rest
  | rest => pyHexBody rest

/-- Remove every (leftmost, non-overlapping) occurrence of `pat`,
fuel-indexed so that it reduces by `rfl`; `removeAll` supplies enough fuel
for any non-empty pattern. -/
def removeAllAux (pat : List Char) : Nat → List Char → List Char
  | 0, cs => cs
  | _ + 1, [] => []
  | fuel + 1, c :: rest =>
    if pat.isPrefixOf (c :: rest) then
      removeAllAux pat fuel (List.drop (pat.length - 1) rest)
    else c :: removeAllAux pat fuel rest

/-- Python `s.replace(pat, '')`. -/
def removeAll (pat : List Char) (cs : List Char) : List Char :=
  removeAllAux pat cs.length cs

/-- Character stripped by `strip` with braces argument. -/
def isBrace (c : Char) : Bool := c == '{' || c == '}'

/-- Python `s.strip` with the two brace characters: drop them from both
ends. -/
def stripBraces (cs : List Char) : List Char :=
  ((cs.dropWhile isBrace).reverse.dropWhile isBrace).reverse

/-- Whether `uuid.UUID(s)` succeeds, i.e. the `connection_id` validation of
`run` passes. -/
def validUUID (s : String) : Bool :=
  let cs0 := removeAll ("uuid:".toList) (removeAll ("urn:".toList) s.toList)
  let cs1 := stripBraces cs0
  let cs2 := cs1.filter (fun c => c != '-')
  cs2.length == 32 && pyIntHexOk cs2

/-! ### The HTTP layer -/

/-- Outcome of one HTTP call: a decoded response, or a
`requests.RequestException` raised at the transport level. -/
inductive HttpResult where
  | resp (code : Nat) (body : Json)
  | exn

/-- The remote Airbyte server, as an oracle for the five endpoints used by
the task.  `jobsGet n` is the response to the `n`-th poll (0-based) of
`POST /jobs/get/`; the other endpoints are called at most once per run. -/
structure Server where
  health : HttpResult
  connectionsGet : HttpResult
  connectionsUpdate : HttpResult
  connectionsSync : HttpResult
  jobsGet : Nat → HttpResult

/-- An HTTP request issued by the task, with the body fields the code
sends. -/
inductive ApiRequest where
  | health
  | connectionsGet (connection_id : String)
  | connectionsUpdate (connection_id : String) (syncCatalog : Json)
      (schedule : Json) (status : Json)
  | connectionsSync (connection_id : String)
  | jobsGet (job_id : Json)

/-- Whether a request is the sync trigger `POST /connections/sync/`. -/
def ApiRequest.isSyncReq : ApiRequest → Bool
  | .connectionsSync _ => true
  | _ => false

/-- The ways `run` can terminate abnormally.  `validationError` is the
`ValueError` of the `connection_id` checks; `serverUnhealthy` is
`AirbyteServerNotHealthyException`; `connectionNotFound` and `jobNotFound`
are the two NotFound exception classes; `failInactive` and `failDeprecated`
are the two `FAIL` signals of the status switch; `keyError` is an untyped
KeyError/TypeError on a missing JSON key; `noneUnpack` is the untyped
TypeError raised when `run` unpacks a helper result of `None` into a
tuple. -/
inductive Err where
  | validationError
  | serverUnhealthy
  | connectionNotFound
  | jobNotFound
  | failInactive
  | failDeprecated
  | keyError
  | noneUnpack

/-- The dict returned by a successful `run`. -/
structure SyncResult where
  connection_id : String
  status : Json
  job_status : Json
  job_created_at : Json
  job_updated_at : Json

/-- Normal return value of `run`: the result dict, or Python `None` when
the status switch falls through every branch. -/
inductive RunOutput where
  | result (r : SyncResult)
  | noneResult

/-- Whether `response.raise_for_status()` raises (HTTPError, a
`RequestException`): true exactly for 4xx and 5xx codes. -/
def raisesForStatus (code : Nat) : Bool := decide (400 ≤ code ∧ code < 600)

/-! ### The four helper methods

Each returns its Python result (with `Option` for a Python `None`) together
with the list of requests it issued. -/

/-- `AirbyteConnectionTask._check_health_status`.  Reads the flag under
`available` if that key exists, else under `db`; never inspects the HTTP
status code. -/
def check_health_status (srv : Server) : Except Err Unit × List ApiRequest :=
  match srv.health with
  | .exn => (.error .serverUnhealthy, [.health])
  | .resp _code body =>
    match Json.get? body
        (if (Json.get? body "available").isSome then "available" else "db") with
    | none => (.error .keyError, [.health])
    | some flag =>
      if flag.truthy then (.ok (), [.health])
      else (.error .serverUnhealthy, [.health])

/-- `AirbyteConnectionTask._get_connection_status`.  Note that the
schedule-removal update POST sits inside the same try/except as the get,
so a transport failure of the update is converted to
`AirbyteServerNotHealthyException`, while any HTTP status of the update
(200 or not) merely logs and proceeds. -/
def get_connection_status (srv : Server) (connection_id : String) :
    Except Err Json × List ApiRequest :=
  match srv.connectionsGet with
  | .exn => (.error .serverUnhealthy, [.connectionsGet connection_id])
  | .resp code body =>
    if raisesForStatus code then
      (.error .serverUnhealthy, [.connectionsGet connection_id])
    else
      match Json.get? body "schedule" with
      | none => (.error .keyError, [.connectionsGet connection_id])
      | some schedule =>
        if schedule.truthy then
          match Json.get? body "syncCatalog" with
          | none => (.error .keyError, [.connectionsGet connection_id])
          | some syncCatalog =>
            match Json.get? body "status" with
            | none => (.error .keyError, [.connectionsGet connection_id])
            | some connStatus =>
              match srv.connectionsUpdate with
              | .exn =>
                (.error .serverUnhealthy,
                 [.connectionsGet connection_id,
                  .connectionsUpdate connection_id syncCatalog .null connStatus])
              | .resp _c2 _b2 =>
                (.ok connStatus,
                 [.connectionsGet connection_id,
                  .connectionsUpdate connection_id syncCatalog .null connStatus])
        else
          match Json.get? body "status" with
          | none => (.error .keyError, [.connectionsGet connection_id])
          | some connStatus => (.ok connStatus, [.connectionsGet connection_id])

/-- `AirbyteConnectionTask._trigger_manual_sync_connection`.  Returns
`ok none` for Python falling off the end of the function (HTTP status other
than 200/404). -/
def trigger_manual_sync_connection (srv : Server) (connection_id : String) :
    Except Err (Option (Json × Json)) × List ApiRequest :=
  match srv.connectionsSync with
  | .exn => (.error .serverUnhealthy, [.connectionsSync connection_id])
  | .resp code body =>
    if code = 200 then
      match Json.get? body "job" with
      | none => (.error .keyError, [.connectionsSync connection_id])
      | some job =>
        match Json.get? job "id", Json.get? job "createdAt" with
        | some jid, some jca =>
          (.ok (some (jid, jca)), [.connectionsSync connection_id])
        | _, _ => (.error .keyError, [.connectionsSync connection_id])
    else if code = 404 then
      (.error .connectionNotFound, [.connectionsSync connection_id])
    else (.ok none, [.connectionsSync connection_id])

/-- `AirbyteConnectionTask._get_job_status` at the `n`-th poll.  Returns
`ok none` for Python falling off the end (HTTP status other than
200/404). -/
def get_job_status (srv : Server) (job_id : Json) (n : Nat) :
    Except Err (Option (Json × Json × Json)) × List ApiRequest :=
  match srv.jobsGet n with
  | .exn => (.error .serverUnhealthy, [.jobsGet job_id])
  | .resp code body =>
    if code = 200 then
      match Json.get? body "job" with
      | none => (.error .keyError, [.jobsGet job_id])
      | some job =>
        match Json.get? job "status", Json.get? job "createdAt",
            Json.get? job "updatedAt" with
        | some s, some c, some u =>
          (.ok (some (s, c, u)), [.jobsGet job_id])
        | _, _, _ => (.error .keyError, [.jobsGet job_id])
    else if code = 404 then (.error .jobNotFound, [.jobsGet job_id])
    else (.ok none, [.jobsGet job_id])

/-- The loop guard `job_status not in [JOB_STATUS_FAILED,
JOB_STATUS_SUCCEEDED]`, negated: true exactly on the two strings the loop
treats as terminal. -/
def isTerminal : Json → Bool
  | .str s => s == "failed" || s == "succeeded"
  | _ => false

/-- The `while` polling loop of `run`, starting at poll number `n` with
`fuel` polls allowed.  Returns `none` when the loop is still running after
`fuel` polls, otherwise the loop outcome (final `(status, createdAt,
updatedAt)` triple or exception), the requests issued, and the number of
`sleep(poll_interval_s)` calls executed (one after each poll whose status
is not terminal). -/
def pollLoop (srv : Server) (job_id : Json) :
    Nat → Nat → Option (Except Err (Json × Json × Json) × List ApiRequest × Nat)
  | _, 0 => none
  | n, fuel + 1 =>
    match get_job_status srv job_id n with
    | (.error e, reqs) => some (.error e, reqs, 0)
    | (.ok none, reqs) => some (.error .noneUnpack, reqs, 0)
    | (.ok (some (s, c, u)), reqs) =>
      if isTerminal s then some (.ok (s, c, u), reqs, 0)
      else
        match pollLoop srv job_id (n + 1) fuel with
        | none => none
        | some (r2, reqs2, sl) => some (r2, reqs ++ reqs2, sl + 1)

/-- `AirbyteConnectionTask.run` for a given server oracle.  `connection_id`
is the value after parameter defaulting (`none` models Python `None`).
`fuel` bounds the number of polls: a result of `none` means the polling
loop is still running (the code would keep polling forever on such a
server).  On termination: the outcome, the full list of requests issued,
and the number of `sleep(poll_interval_s)` calls executed. -/
def run (srv : Server) (connection_id : Option String) (fuel : Nat) :
    Option (Except Err RunOutput × List ApiRequest × Nat) :=
  match connection_id with
  | none => some (.error .validationError, [], 0)
  | some cid =>
    if cid = "" then some (.error .validationError, [], 0)
    else if validUUID cid then
      match check_health_status srv with
      | (.error e, reqsH) => some (.error e, reqsH, 0)
      | (.ok _, reqsH) =>
        match get_connection_status srv cid with
        | (.error e, reqsC) => some (.error e, reqsH ++ reqsC, 0)
        | (.ok connStatus, reqsC) =>
          if connStatus.isStr "active" then
            match trigger_manual_sync_connection srv cid with
            | (.error e, reqsT) => some (.error e, reqsH ++ reqsC ++ reqsT, 0)
            | (.ok none, reqsT) =>
              some (.error .noneUnpack, reqsH ++ reqsC ++ reqsT, 0)
            | (.ok (some (job_id, _job_created_at)), reqsT) =>
              match pollLoop srv job_id 0 fuel with
              | none => none
              | some (.error e, reqsP, sleeps) =>
                some (.error e, reqsH ++ reqsC ++ reqsT ++ reqsP, sleeps)
              | some (.ok (js, jca, jua), reqsP, sleeps) =>
                some (.ok (.result
                  { connection_id := cid, status := connStatus,
                    job_status := js, job_created_at := jca,
                    job_updated_at := jua }),
                  reqsH ++ reqsC ++ reqsT ++ reqsP, sleeps)
          else if connStatus.isStr "inactive" then
            some (.error .failInactive, reqsH ++ reqsC, 0)
          else if connStatus.isStr "deprecated" then
            some (.error .failDeprecated, reqsH ++ reqsC, 0)
          else some (.ok .noneResult, reqsH ++ reqsC, 0)
    else some (.error .validationError, [], 0)

/-- Job-status response body `\x7b"job": \x7b"status": s, "createdAt": c,
"updatedAt": u\x7d\x7d`. -/
def mkJobBody (s c u : Json) : Json :=
  .obj [("job", .obj [("status", s), ("createdAt", c), ("updatedAt", u)])]

/-! ### Helper lemmas -/

lemma check_health_status_snd (srv : Server) :
    (check_health_status srv).2 = [ApiRequest.health] := by
  unfold check_health_status
  cases srv.health with
  | exn => rfl
  | resp code body =>
    dsimp only
    split
    · rfl
    · split <;> rfl

lemma trigger_snd (srv : Server) (cid : String) :
    (trigger_manual_sync_connection srv cid).2 = [ApiRequest.connectionsSync cid] := by
  unfold trigger_manual_sync_connection
  cases srv.connectionsSync with
  | exn => rfl
  | resp code body =>
    dsimp only
    split
    · split
      · rfl
      · split <;> rfl
    · split <;> rfl

lemma get_connection_status_no_sync (srv : Server) (cid : String) :
    ((get_connection_status srv cid).2.all fun r => !r.isSyncReq) = true := by
  unfold get_connection_status
  cases srv.connectionsGet with
  | exn => rfl
  | resp code body =>
    dsimp only
    split
    · rfl
    · split
      · rfl
      · split
        · split
          · rfl
          · split
            · rfl
            · split <;> rfl
        · split <;> rfl

lemma get_job_status_mk (srv : Server) (jid : Json) (m : Nat) (s c u : Json)
    (h : srv.jobsGet m = HttpResult.resp 200 (mkJobBody s c u)) :
    get_job_status srv jid m = (Except.ok (some (s, c, u)), [ApiRequest.jobsGet jid]) := by
  simp [get_job_status, h, mkJobBody, Json.get?, getKey]

/-- If every poll up to `k` is an HTTP 200 with a well-formed job body, the
first `k` statuses are not terminal and the `k`-th is, then the loop stops
right after poll `k` with the triple of that poll, having issued `k + 1`
job-status requests and slept `k` times. -/
lemma pollLoop_stops (srv : Server) (jid : Json) (st ca ua : Nat → Json)
    (hresp : ∀ m, srv.jobsGet m = HttpResult.resp 200 (mkJobBody (st m) (ca m) (ua m))) :
    ∀ (k n fuel : Nat), k < fuel →
      (∀ j, j < k → isTerminal (st (n + j)) = false) →
      isTerminal (st (n + k)) = true →
      pollLoop srv jid n fuel =
        some (Except.ok (st (n + k), ca (n + k), ua (n + k)),
          List.replicate (k + 1) (ApiRequest.jobsGet jid), k) := by
  intro k
  induction k with
  | zero =>
    intro n fuel hf _ hterm
    obtain ⟨fuel, rfl⟩ : ∃ f, fuel = f + 1 := ⟨fuel - 1, by omega⟩
    simp only [Nat.add_zero] at hterm
    simp [pollLoop, get_job_status_mk srv jid n _ _ _ (hresp n), hterm]
  | succ k ih =>
    intro n fuel hf hpre hterm
    obtain ⟨fuel, rfl⟩ : ∃ f, fuel = f + 1 := ⟨fuel - 1, by omega⟩
    have h0 : isTerminal (st n) = false := by
      have := hpre 0 (Nat.succ_pos k)
      simpa using this
    have hrec := ih (n + 1) fuel (by omega)
      (fun j hj => by
        have h1 := hpre (j + 1) (by omega)
        have h2 : n + (j + 1) = n + 1 + j := by omega
        rw [h2] at h1; exact h1)
      (by
        have h2 : n + 1 + k = n + (k + 1) := by omega
        rw [h2]; exact hterm)
    have hidx : n + 1 + k = n + (k + 1) := by omega
    rw [hidx] at hrec
    simp [pollLoop, get_job_status_mk srv jid n _ _ _ (hresp n), h0, hrec,
      List.replicate_succ]

/-- If every poll is an HTTP 200 with a well-formed job body and no status
is ever terminal, the loop never terminates, whatever the fuel. -/
lemma pollLoop_diverges (srv : Server) (jid : Json) (st ca ua : Nat → Json)
    (hresp : ∀ m, srv.jobsGet m = HttpResult.resp 200 (mkJobBody (st m) (ca m) (ua m)))
    (hnt : ∀ m, isTerminal (st m) = false) :
    ∀ fuel n, pollLoop srv jid n fuel = none := by
  intro fuel
  induction fuel with
  | zero => intro n; rfl
  | succ fuel ih =>
    intro n
    simp [pollLoop, get_job_status_mk srv jid n _ _ _ (hresp n), hnt n, ih (n + 1)]

/-- Unfolding of `run` up to the polling loop, when validation passes, the
health check succeeds, the connection status is `active` and the sync
trigger returns a job. -/
lemma run_active_eq (srv : Server) (cid : String) (jid jca : Json) (fuel : Nat)
    (hne : ¬ cid = "") (huuid : validUUID cid = true)
    (hH : (check_health_status srv).1 = Except.ok ())
    (hC : (get_connection_status srv cid).1 = Except.ok (Json.str "active"))
    (hT : (trigger_manual_sync_connection srv cid).1 = Except.ok (some (jid, jca))) :
    run srv (some cid) fuel =
      (pollLoop srv jid 0 fuel).map (fun out =>
        match out with
        | (.error e, reqsP, sl) =>
          (.error e,
           [ApiRequest.health] ++ (get_connection_status srv cid).2
             ++ [ApiRequest.connectionsSync cid] ++ reqsP, sl)
        | (.ok (s, c, u), reqsP, sl) =>
          (.ok (.result
            { connection_id := cid, status := Json.str "active", job_status := s,
              job_created_at := c, job_updated_at := u }),
           [ApiRequest.health] ++ (get_connection_status srv cid).2
             ++ [ApiRequest.connectionsSync cid] ++ reqsP, sl)) := by
  have hhc : check_health_status srv = (Except.ok (), [ApiRequest.health]) :=
    Prod.ext hH (check_health_status_snd srv)
  rcases hgc : get_connection_status srv cid with ⟨rC, reqsC⟩
  have hrC : rC = Except.ok (Json.str "active") := by rw [hgc] at hC; exact hC
  subst hrC
  have htc : trigger_manual_sync_connection srv cid =
      (Except.ok (some (jid, jca)), [ApiRequest.connectionsSync cid]) :=
    Prod.ext hT (trigger_snd srv cid)
  simp only [run, hne, huuid, hhc, hgc, htc, if_false, if_true, Json.isStr]
  cases hp : pollLoop srv jid 0 fuel with
  | none => simp
  | some out =>
    rcases out with ⟨r, reqsP, sl⟩
    cases r with
    | error e => simp
    | ok v => rcases v with ⟨s, c, u⟩; simp

/-! ### Concrete servers and inputs used by witnesses and counterexamples -/

/-- A syntactically valid connection id. -/
def uuid0 : String := "12345678-1234-5678-1234-567812345678"

/-- A server that fails every call at the transport level. -/
def srvIdle : Server :=
  { health := .exn, connectionsGet := .exn, connectionsUpdate := .exn,
    connectionsSync := .exn, jobsGet := fun _ => .exn }

/-! ### Claims -/

/-- C3: for every `connection_id` that is missing, empty, or not a
well-formed UUID, `run` fails with the validation error before issuing any
network request (the request trace is empty). -/
theorem C3_validation_before_network (srv : Server) (cid : Option String)
    (fuel : Nat)
    (h : cid = none ∨ cid = some "" ∨ ∃ s, cid = some s ∧ validUUID s = false) :
    run srv cid fuel = some (Except.error Err.validationError, [], 0) := by
  rcases h with rfl | rfl | ⟨s, rfl, hs⟩
  · rfl
  · simp [run]
  · simp [run, hs]

/-- Witness for C3 at the concrete malformed input "zzz". -/
theorem C3_witness :
    run srvIdle (some "zzz") 0 = some (Except.error Err.validationError, [], 0) :=
  C3_validation_before_network srvIdle (some "zzz") 0
    (Or.inr (Or.inr ⟨"zzz", rfl, rfl⟩))

/-- C4: if the health flag (key `available` if present, else `db`) is
falsy, or the health request fails at the transport level, `run` fails with
the server-unhealthy error having issued only the health request; and more
generally no step after the health check runs unless it succeeds. -/
theorem C4_health_gate (srv : Server) (cid : String) (fuel : Nat)
    (hne : ¬ cid = "") (huuid : validUUID cid = true)
    (hfail : srv.health = HttpResult.exn ∨
      ∃ code body flag, srv.health = HttpResult.resp code body ∧
        Json.get? body
          (if (Json.get? body "available").isSome then "available" else "db") =
            some flag ∧
        flag.truthy = false) :
    run srv (some cid) fuel =
      some (Except.error Err.serverUnhealthy, [ApiRequest.health], 0)
    ∧ ∀ e, (check_health_status srv).1 = Except.error e →
        run srv (some cid) fuel = some (Except.error e, [ApiRequest.health], 0) := by
  constructor
  · have hhc : check_health_status srv =
        (Except.error Err.serverUnhealthy, [ApiRequest.health]) := by
      rcases hfail with h | ⟨code, body, flag, h, hk, hf⟩
      · simp [check_health_status, h]
      · simp [check_health_status, h, hk, hf]
    simp [run, hne, huuid, hhc]
  · intro e he
    have hhc : check_health_status srv = (Except.error e, [ApiRequest.health]) :=
      Prod.ext he (check_health_status_snd srv)
    simp [run, hne, huuid, hhc]

def srvC4 : Server :=
  { health := .resp 200 (.obj [("available", .bool false)]),
    connectionsGet := .exn, connectionsUpdate := .exn,
    connectionsSync := .exn, jobsGet := fun _ => .exn }

/-- Witness for C4: health endpoint answering available = false. -/
theorem C4_witness :
    run srvC4 (some uuid0) 0 =
      some (Except.error Err.serverUnhealthy, [ApiRequest.health], 0) :=
  (C4_health_gate srvC4 uuid0 0 (by decide) rfl
    (Or.inr ⟨200, Json.obj [("available", Json.bool false)], Json.bool false,
      rfl, rfl, rfl⟩)).1

/-- C5: the sync trigger returns the job id and createdAt extracted from
the `job` object of an HTTP 200 body; on HTTP 404 it fails with
connection-not-found; on transport failure it fails with
server-unhealthy. -/
theorem C5_trigger_sync (srv : Server) (cid : String) :
    (∀ body job jid jca, srv.connectionsSync = HttpResult.resp 200 body →
      Json.get? body "job" = some job → Json.get? job "id" = some jid →
      Json.get? job "createdAt" = some jca →
      trigger_manual_sync_connection srv cid =
        (Except.ok (some (jid, jca)), [ApiRequest.connectionsSync cid]))
    ∧ (∀ body, srv.connectionsSync = HttpResult.resp 404 body →
      trigger_manual_sync_connection srv cid =
        (Except.error Err.connectionNotFound, [ApiRequest.connectionsSync cid]))
    ∧ (srv.connectionsSync = HttpResult.exn →
      trigger_manual_sync_connection srv cid =
        (Except.error Err.serverUnhealthy, [ApiRequest.connectionsSync cid])) := by
  refine ⟨?_, ?_, ?_⟩
  · intro body job jid jca h hj hid hca
    simp [trigger_manual_sync_connection, h, hj, hid, hca]
  · intro body h
    simp [trigger_manual_sync_connection, h]
  · intro h
    simp [trigger_manual_sync_connection, h]

def bodyJob : Json := .obj [("job", .obj [("id", .num 7), ("createdAt", .num 99)])]

def srvC5 : Server :=
  { health := .exn, connectionsGet := .exn, connectionsUpdate := .exn,
    connectionsSync := .resp 200 bodyJob, jobsGet := fun _ => .exn }

/-- Witness for C5 on an HTTP 200 body with job id 7 and createdAt 99. -/
theorem C5_witness :
    trigger_manual_sync_connection srvC5 uuid0 =
      (Except.ok (some (Json.num 7, Json.num 99)), [ApiRequest.connectionsSync uuid0]) :=
  (C5_trigger_sync srvC5 uuid0).1 bodyJob
    (Json.obj [("id", Json.num 7), ("createdAt", Json.num 99)])
    (Json.num 7) (Json.num 99) rfl rfl rfl rfl

/-- C6: a connection status of `inactive` makes `run` fail with the
inactive FAIL signal, `deprecated` with the deprecated FAIL signal, and in
both cases the request trace contains no sync-trigger request. -/
theorem C6_inactive_deprecated (srv : Server) (cid : String) (fuel : Nat)
    (hne : ¬ cid = "") (huuid : validUUID cid = true)
    (hH : (check_health_status srv).1 = Except.ok ()) :
    ((get_connection_status srv cid).1 = Except.ok (Json.str "inactive") →
      run srv (some cid) fuel =
        some (Except.error Err.failInactive,
          [ApiRequest.health] ++ (get_connection_status srv cid).2, 0))
    ∧ ((get_connection_status srv cid).1 = Except.ok (Json.str "deprecated") →
      run srv (some cid) fuel =
        some (Except.error Err.failDeprecated,
          [ApiRequest.health] ++ (get_connection_status srv cid).2, 0))
    ∧ (∀ r ∈ [ApiRequest.health] ++ (get_connection_status srv cid).2,
        r.isSyncReq = false) := by
  have hhc : check_health_status srv = (Except.ok (), [ApiRequest.health]) :=
    Prod.ext hH (check_health_status_snd srv)
  refine ⟨?_, ?_, ?_⟩
  · intro hC
    rcases hgc : get_connection_status srv cid with ⟨rC, reqsC⟩
    rw [hgc] at hC
    simp only at hC
    subst hC
    simp [run, hne, huuid, hhc, hgc, Json.isStr]
  · intro hC
    rcases hgc : get_connection_status srv cid with ⟨rC, reqsC⟩
    rw [hgc] at hC
    simp only at hC
    subst hC
    simp [run, hne, huuid, hhc, hgc, Json.isStr]
  · intro r hr
    rcases List.mem_append.mp hr with h | h
    · have : r = ApiRequest.health := by simpa using h
      subst this; rfl
    · have hall := get_connection_status_no_sync srv cid
      rw [List.all_eq_true] at hall
      have := hall r h
      simpa using this

def srvC6 : Server :=
  { health := .resp 200 (.obj [("available", .bool true)]),
    connectionsGet := .resp 200 (.obj [("schedule", .null), ("status", .str "inactive")]),
    connectionsUpdate := .exn, connectionsSync := .exn, jobsGet := fun _ => .exn }

/-- Witness for C6 on a connection whose status is inactive. -/
theorem C6_witness :
    run srvC6 (some uuid0) 0 =
      some (Except.error Err.failInactive,
        [ApiRequest.health] ++ (get_connection_status srvC6 uuid0).2, 0) :=
  (C6_inactive_deprecated srvC6 uuid0 0 (by decide) rfl rfl).1 rfl

/-- C9: for every connection status other than `active`, `inactive` or
`deprecated`, `run` falls through every branch of the status switch and
returns Python None, with no error raised and no SyncResult produced. -/
theorem C9_unrecognized_status_returns_none (srv : Server) (cid : String)
    (stc : Json) (fuel : Nat)
    (hne : ¬ cid = "") (huuid : validUUID cid = true)
    (hH : (check_health_status srv).1 = Except.ok ())
    (hC : (get_connection_status srv cid).1 = Except.ok stc)
    (h1 : stc.isStr "active" = false) (h2 : stc.isStr "inactive" = false)
    (h3 : stc.isStr "deprecated" = false) :
    run srv (some cid) fuel =
      some (Except.ok RunOutput.noneResult,
        [ApiRequest.health] ++ (get_connection_status srv cid).2, 0) := by
  have hhc : check_health_status srv = (Except.ok (), [ApiRequest.health]) :=
    Prod.ext hH (check_health_status_snd srv)
  rcases hgc : get_connection_status srv cid with ⟨rC, reqsC⟩
  rw [hgc] at hC
  simp only at hC
  subst hC
  simp [run, hne, huuid, hhc, hgc, h1, h2, h3]

def srvC9 : Server :=
  { health := .resp 200 (.obj [("available", .bool true)]),
    connectionsGet := .resp 200 (.obj [("schedule", .null), ("status", .str "pending")]),
    connectionsUpdate := .exn, connectionsSync := .exn, jobsGet := fun _ => .exn }

/-- Witness for C9 on the unrecognized connection status "pending". -/
theorem C9_witness :
    run srvC9 (some uuid0) 0 =
      some (Except.ok RunOutput.noneResult,
        [ApiRequest.health] ++ (get_connection_status srvC9 uuid0).2, 0) :=
  C9_unrecognized_status_returns_none srvC9 uuid0 (Json.str "pending") 0
    (by decide) rfl rfl rfl rfl rfl rfl

/-- C1 (amended): if the connection returned by the get carries a truthy
schedule, `get_connection_status` issues exactly one update request, whose
body has `schedule` null and the `syncCatalog` and `status` copied
unchanged from the get response; if the update completes with any HTTP
status (2xx or not) the method returns the connection status, so `run`
proceeds to the status switch; but a transport failure of the update is
caught by the surrounding try/except and aborts the run with the
server-unhealthy error. -/
theorem C1_remove_schedule (srv : Server) (cid : String) (code : Nat)
    (body sched cat stc : Json)
    (hresp : srv.connectionsGet = HttpResult.resp code body)
    (hcode : raisesForStatus code = false)
    (hs : Json.get? body "schedule" = some sched)
    (hst : sched.truthy = true)
    (hcat : Json.get? body "syncCatalog" = some cat)
    (hstat : Json.get? body "status" = some stc) :
    (get_connection_status srv cid).2 =
      [ApiRequest.connectionsGet cid,
       ApiRequest.connectionsUpdate cid cat Json.null stc]
    ∧ (∀ c2 b2, srv.connectionsUpdate = HttpResult.resp c2 b2 →
        (get_connection_status srv cid).1 = Except.ok stc)
    ∧ (srv.connectionsUpdate = HttpResult.exn →
        (get_connection_status srv cid).1 = Except.error Err.serverUnhealthy) := by
  refine ⟨?_, ?_, ?_⟩
  · simp only [get_connection_status, hresp, hcode, hs, hst, hcat, hstat,
      Bool.false_eq_true, if_false, if_true]
    cases srv.connectionsUpdate <;> simp
  · intro c2 b2 h
    simp [get_connection_status, hresp, hcode, hs, hst, hcat, hstat, h]
  · intro h
    simp [get_connection_status, hresp, hcode, hs, hst, hcat, hstat, h]

def bodyC1 : Json :=
  .obj [("schedule", .obj [("units", .num 1)]), ("syncCatalog", .str "cat"),
        ("status", .str "active")]

def srvC1w : Server :=
  { health := .resp 200 (.obj [("available", .bool true)]),
    connectionsGet := .resp 200 bodyC1,
    connectionsUpdate := .resp 500 (.obj []),
    connectionsSync := .resp 200 bodyJob,
    jobsGet := fun _ => .resp 200 (mkJobBody (.str "succeeded") (.num 1) (.num 2)) }

/-- Witness for C1: a scheduled connection whose update answers HTTP 500;
exactly one update request with schedule null is issued and the method
still returns the connection status. -/
theorem C1_witness :
    (get_connection_status srvC1w uuid0).2 =
      [ApiRequest.connectionsGet uuid0,
       ApiRequest.connectionsUpdate uuid0 (Json.str "cat") Json.null
         (Json.str "active")]
    ∧ (get_connection_status srvC1w uuid0).1 = Except.ok (Json.str "active") :=
  ⟨(C1_remove_schedule srvC1w uuid0 200 bodyC1 (Json.obj [("units", Json.num 1)])
      (Json.str "cat") (Json.str "active") rfl rfl rfl rfl rfl rfl).1,
   (C1_remove_schedule srvC1w uuid0 200 bodyC1 (Json.obj [("units", Json.num 1)])
      (Json.str "cat") (Json.str "active") rfl rfl rfl rfl rfl rfl).2.1
     500 (Json.obj []) rfl⟩

def srvC1x : Server :=
  { health := .resp 200 (.obj [("available", .bool true)]),
    connectionsGet := .resp 200 bodyC1,
    connectionsUpdate := .exn,
    connectionsSync := .resp 200 bodyJob,
    jobsGet := fun _ => .resp 200 (mkJobBody (.str "succeeded") (.num 1) (.num 2)) }

/-- C1 counterexample: with an active, scheduled connection whose update
request fails at the transport level, the claim says the run proceeds to
the status switch (which here would trigger the sync and succeed), but the
code aborts with the server-unhealthy error: the trace ends at the update
request and contains no sync-trigger request. -/
theorem C1_counterexample :
    run srvC1x (some uuid0) 1 =
      some (Except.error Err.serverUnhealthy,
        [ApiRequest.health, ApiRequest.connectionsGet uuid0,
         ApiRequest.connectionsUpdate uuid0 (Json.str "cat") Json.null
           (Json.str "active")], 0)
    ∧ ([ApiRequest.health, ApiRequest.connectionsGet uuid0,
        ApiRequest.connectionsUpdate uuid0 (Json.str "cat") Json.null
          (Json.str "active")].all fun r => !r.isSyncReq) = true :=
  ⟨rfl, rfl⟩

/-- C10: a sync-trigger or job-status response with an HTTP status other
than 200 and 404 and no transport failure makes the helper return Python
None, which `run` unpacks into a tuple, so the failure surfaces as the
untyped unpacking TypeError and not as any error of the taxonomy. -/
theorem C10_unclassified_status_none_unpack (srv : Server) (cid : String)
    (hne : ¬ cid = "") (huuid : validUUID cid = true)
    (hH : (check_health_status srv).1 = Except.ok ())
    (hC : (get_connection_status srv cid).1 = Except.ok (Json.str "active")) :
    (∀ code body fuel, srv.connectionsSync = HttpResult.resp code body →
      ¬ code = 200 → ¬ code = 404 →
      (trigger_manual_sync_connection srv cid).1 = Except.ok none ∧
      run srv (some cid) fuel =
        some (Except.error Err.noneUnpack,
          [ApiRequest.health] ++ (get_connection_status srv cid).2
            ++ [ApiRequest.connectionsSync cid], 0))
    ∧ (∀ jid jca code body fuel,
      (trigger_manual_sync_connection srv cid).1 = Except.ok (some (jid, jca)) →
      srv.jobsGet 0 = HttpResult.resp code body → ¬ code = 200 → ¬ code = 404 →
      (get_job_status srv jid 0).1 = Except.ok none ∧
      run srv (some cid) (fuel + 1) =
        some (Except.error Err.noneUnpack,
          [ApiRequest.health] ++ (get_connection_status srv cid).2
            ++ [ApiRequest.connectionsSync cid] ++ [ApiRequest.jobsGet jid], 0)) := by
  have hhc : check_health_status srv = (Except.ok (), [ApiRequest.health]) :=
    Prod.ext hH (check_health_status_snd srv)
  constructor
  · intro code body fuel h hn200 hn404
    have htr : trigger_manual_sync_connection srv cid =
        (Except.ok none, [ApiRequest.connectionsSync cid]) := by
      simp [trigger_manual_sync_connection, h, hn200, hn404]
    refine ⟨by rw [htr], ?_⟩
    rcases hgc : get_connection_status srv cid with ⟨rC, reqsC⟩
    rw [hgc] at hC
    simp only at hC
    subst hC
    simp [run, hne, huuid, hhc, hgc, htr, Json.isStr]
  · intro jid jca code body fuel hT hj hn200 hn404
    have hjs : get_job_status srv jid 0 = (Except.ok none, [ApiRequest.jobsGet jid]) := by
      simp [get_job_status, hj, hn200, hn404]
    refine ⟨by rw [hjs], ?_⟩
    rw [run_active_eq srv cid jid jca (fuel + 1) hne huuid hH hC hT]
    have hpl : pollLoop srv jid 0 (fuel + 1) =
        some (Except.error Err.noneUnpack, [ApiRequest.jobsGet jid], 0) := by
      simp [pollLoop, hjs]
    rw [hpl]
    simp

def srvC10a : Server :=
  { health := .resp 200 (.obj [("available", .bool true)]),
    connectionsGet := .resp 200 (.obj [("schedule", .null), ("status", .str "active")]),
    connectionsUpdate := .exn,
    connectionsSync := .resp 500 (.obj []),
    jobsGet := fun _ => .exn }

def srvC10b : Server :=
  { health := .resp 200 (.obj [("available", .bool true)]),
    connectionsGet := .resp 200 (.obj [("schedule", .null), ("status", .str "active")]),
    connectionsUpdate := .exn,
    connectionsSync := .resp 200 bodyJob,
    jobsGet := fun _ => .resp 500 (.obj []) }

/-- Witness for C10: HTTP 500 on the sync trigger, and HTTP 500 on the
first job-status poll. -/
theorem C10_witness :
    run srvC10a (some uuid0) 0 =
      some (Except.error Err.noneUnpack,
        [ApiRequest.health] ++ (get_connection_status srvC10a uuid0).2
          ++ [ApiRequest.connectionsSync uuid0], 0)
    ∧ run srvC10b (some uuid0) 1 =
      some (Except.error Err.noneUnpack,
        [ApiRequest.health] ++ (get_connection_status srvC10b uuid0).2
          ++ [ApiRequest.connectionsSync uuid0] ++ [ApiRequest.jobsGet (Json.num 7)], 0) :=
  ⟨((C10_unclassified_status_none_unpack srvC10a uuid0 (by decide) rfl rfl rfl).1
      500 (Json.obj []) 0 rfl (by decide) (by decide)).2,
   ((C10_unclassified_status_none_unpack srvC10b uuid0 (by decide) rfl rfl rfl).2
      (Json.num 7) (Json.num 99) 500 (Json.obj []) 0 rfl rfl (by decide) (by decide)).2⟩

/-- C2: with every poll answering HTTP 200, the loop of `run` returns as
soon as a poll yields `failed` or `succeeded` (the first terminal poll `k`
determines the outcome for every fuel greater than `k`), and if every poll
yields any other status (including `cancelled` and `incomplete`) the loop
never terminates, whatever the fuel. -/
theorem C2_only_failed_succeeded_terminal (srv : Server) (cid : String)
    (jid jca : Json) (st ca ua : Nat → Json)
    (hne : ¬ cid = "") (huuid : validUUID cid = true)
    (hH : (check_health_status srv).1 = Except.ok ())
    (hC : (get_connection_status srv cid).1 = Except.ok (Json.str "active"))
    (hT : (trigger_manual_sync_connection srv cid).1 = Except.ok (some (jid, jca)))
    (hresp : ∀ m, srv.jobsGet m = HttpResult.resp 200 (mkJobBody (st m) (ca m) (ua m))) :
    ((∀ m, isTerminal (st m) = false) → ∀ fuel, run srv (some cid) fuel = none)
    ∧ (∀ k fuel, k < fuel →
        (∀ j, j < k → isTerminal (st j) = false) → isTerminal (st k) = true →
        run srv (some cid) fuel =
          some (Except.ok (RunOutput.result
            { connection_id := cid, status := Json.str "active",
              job_status := st k, job_created_at := ca k, job_updated_at := ua k }),
            [ApiRequest.health] ++ (get_connection_status srv cid).2
              ++ [ApiRequest.connectionsSync cid]
              ++ List.replicate (k + 1) (ApiRequest.jobsGet jid), k)) := by
  constructor
  · intro hnt fuel
    rw [run_active_eq srv cid jid jca fuel hne huuid hH hC hT,
      pollLoop_diverges srv jid st ca ua hresp hnt fuel 0]
    rfl
  · intro k fuel hf hpre hterm
    rw [run_active_eq srv cid jid jca fuel hne huuid hH hC hT]
    have hstop := pollLoop_stops srv jid st ca ua hresp k 0 fuel hf
      (fun j hj => by simpa using hpre j hj) (by simpa using hterm)
    rw [hstop]
    simp

def stCancelled : Nat → Json := fun _ => Json.str "cancelled"

def srvC2w : Server :=
  { health := .resp 200 (.obj [("available", .bool true)]),
    connectionsGet := .resp 200 (.obj [("schedule", .null), ("status", .str "active")]),
    connectionsUpdate := .exn,
    connectionsSync := .resp 200 bodyJob,
    jobsGet := fun n => .resp 200 (mkJobBody (stCancelled n) (Json.num 1) (Json.num 2)) }

/-- Witness for C2: every poll answers `cancelled`, so the run is still
polling after 5 polls. -/
theorem C2_witness : run srvC2w (some uuid0) 5 = none :=
  (C2_only_failed_succeeded_terminal srvC2w uuid0 (Json.num 7) (Json.num 99)
    stCancelled (fun _ => Json.num 1) (fun _ => Json.num 2)
    (by decide) rfl rfl rfl rfl (fun _ => rfl)).1 (fun _ => rfl) 5

/-- C7: on a successful run (active connection, polling reaching a
terminal job status at poll `k`) `run` returns exactly the record with the
connection id, the connection status observed at trigger time, the terminal
job status, and the createdAt and updatedAt timestamps of the final poll;
and that terminal status is `failed` or `succeeded`. -/
theorem C7_sync_result_record (srv : Server) (cid : String)
    (jid jca : Json) (st ca ua : Nat → Json) (k fuel : Nat)
    (hne : ¬ cid = "") (huuid : validUUID cid = true)
    (hH : (check_health_status srv).1 = Except.ok ())
    (hC : (get_connection_status srv cid).1 = Except.ok (Json.str "active"))
    (hT : (trigger_manual_sync_connection srv cid).1 = Except.ok (some (jid, jca)))
    (hresp : ∀ m, srv.jobsGet m = HttpResult.resp 200 (mkJobBody (st m) (ca m) (ua m)))
    (hf : k < fuel)
    (hpre : ∀ j, j < k → isTerminal (st j) = false)
    (hterm : isTerminal (st k) = true) :
    run srv (some cid) fuel =
      some (Except.ok (RunOutput.result
        { connection_id := cid, status := Json.str "active",
          job_status := st k, job_created_at := ca k, job_updated_at := ua k }),
        [ApiRequest.health] ++ (get_connection_status srv cid).2
          ++ [ApiRequest.connectionsSync cid]
          ++ List.replicate (k + 1) (ApiRequest.jobsGet jid), k)
    ∧ ((st k).isStr "failed" = true ∨ (st k).isStr "succeeded" = true) := by
  constructor
  · rw [run_active_eq srv cid jid jca fuel hne huuid hH hC hT]
    have hstop := pollLoop_stops srv jid st ca ua hresp k 0 fuel hf
      (fun j hj => by simpa using hpre j hj) (by simpa using hterm)
    rw [hstop]
    simp
  · cases hsk : st k with
    | null => rw [hsk] at hterm; simp [isTerminal] at hterm
    | bool b => rw [hsk] at hterm; simp [isTerminal] at hterm
    | num n => rw [hsk] at hterm; simp [isTerminal] at hterm
    | arr xs => rw [hsk] at hterm; simp [isTerminal] at hterm
    | obj kvs => rw [hsk] at hterm; simp [isTerminal] at hterm
    | str s =>
      rw [hsk] at hterm
      simp only [isTerminal, Bool.or_eq_true, beq_iff_eq] at hterm
      rcases hterm with h | h
      · left; simp [Json.isStr, h]
      · right; simp [Json.isStr, h]

def stC7 : Nat → Json := fun n => if n = 0 then Json.str "running" else Json.str "succeeded"

def srvC7w : Server :=
  { health := .resp 200 (.obj [("available", .bool true)]),
    connectionsGet := .resp 200 (.obj [("schedule", .null), ("status", .str "active")]),
    connectionsUpdate := .exn,
    connectionsSync := .resp 200 bodyJob,
    jobsGet := fun n => .resp 200 (mkJobBody (stC7 n) (Json.num 1) (Json.num 2)) }

/-- Witness for C7: statuses running then succeeded; the run returns the
record of the second poll after one sleep. -/
theorem C7_witness :
    run srvC7w (some uuid0) 2 =
      some (Except.ok (RunOutput.result
        { connection_id := uuid0, status := Json.str "active",
          job_status := Json.str "succeeded", job_created_at := Json.num 1,
          job_updated_at := Json.num 2 }),
        [ApiRequest.health] ++ (get_connection_status srvC7w uuid0).2
          ++ [ApiRequest.connectionsSync uuid0]
          ++ List.replicate 2 (ApiRequest.jobsGet (Json.num 7)), 1) :=
  (C7_sync_result_record srvC7w uuid0 (Json.num 7) (Json.num 99) stC7
    (fun _ => Json.num 1) (fun _ => Json.num 2) 1 2
    (by decide) rfl rfl rfl rfl (fun _ => rfl) (by omega)
    (fun j hj => by
      have hj0 : j = 0 := by omega
      subst hj0; rfl)
    rfl).1

/-- C8: the `sleep(poll_interval_s)` call is executed after a poll exactly
when that poll yielded a status that is neither `failed` nor `succeeded`:
a first poll of `failed` makes `run` return immediately with zero sleeps,
and in general a run whose first terminal poll is poll `k` executes exactly
`k` sleeps (one for each of the `k` non-terminal polls before it). -/
theorem C8_sleep_only_after_nonterminal (srv : Server) (cid : String)
    (jid jca : Json) (st ca ua : Nat → Json)
    (hne : ¬ cid = "") (huuid : validUUID cid = true)
    (hH : (check_health_status srv).1 = Except.ok ())
    (hC : (get_connection_status srv cid).1 = Except.ok (Json.str "active"))
    (hT : (trigger_manual_sync_connection srv cid).1 = Except.ok (some (jid, jca)))
    (hresp : ∀ m, srv.jobsGet m = HttpResult.resp 200 (mkJobBody (st m) (ca m) (ua m))) :
    (st 0 = Json.str "failed" → ∀ fuel, 0 < fuel →
      run srv (some cid) fuel =
        some (Except.ok (RunOutput.result
          { connection_id := cid, status := Json.str "active",
            job_status := Json.str "failed", job_created_at := ca 0,
            job_updated_at := ua 0 }),
          [ApiRequest.health] ++ (get_connection_status srv cid).2
            ++ [ApiRequest.connectionsSync cid] ++ [ApiRequest.jobsGet jid], 0))
    ∧ (∀ k fuel, k < fuel →
        (∀ j, j < k → isTerminal (st j) = false) → isTerminal (st k) = true →
        ∃ reqs, run srv (some cid) fuel =
          some (Except.ok (RunOutput.result
            { connection_id := cid, status := Json.str "active",
              job_status := st k, job_created_at := ca k, job_updated_at := ua k }),
            reqs, k)) := by
  constructor
  · intro h0 fuel hfuel
    have hterm : isTerminal (st 0) = true := by rw [h0]; rfl
    rw [run_active_eq srv cid jid jca fuel hne huuid hH hC hT]
    have hstop := pollLoop_stops srv jid st ca ua hresp 0 0 fuel hfuel
      (fun j hj => absurd hj (by omega)) hterm
    rw [hstop]
    simp [h0]
  · intro k fuel hf hpre hterm
    refine ⟨[ApiRequest.health] ++ (get_connection_status srv cid).2
      ++ [ApiRequest.connectionsSync cid]
      ++ List.replicate (k + 1) (ApiRequest.jobsGet jid), ?_⟩
    rw [run_active_eq srv cid jid jca fuel hne huuid hH hC hT]
    have hstop := pollLoop_stops srv jid st ca ua hresp k 0 fuel hf
      (fun j hj => by simpa using hpre j hj) (by simpa using hterm)
    rw [hstop]
    simp

def stFailed : Nat → Json := fun _ => Json.str "failed"

def srvC8w : Server :=
  { health := .resp 200 (.obj [("available", .bool true)]),
    connectionsGet := .resp 200 (.obj [("schedule", .null), ("status", .str "active")]),
    connectionsUpdate := .exn,
    connectionsSync := .resp 200 bodyJob,
    jobsGet := fun n => .resp 200 (mkJobBody (stFailed n) (Json.num 1) (Json.num 2)) }

/-- Witness for C8: the first poll answers `failed`; the run returns at
once with zero sleeps. -/
theorem C8_witness :
    run srvC8w (some uuid0) 1 =
      some (Except.ok (RunOutput.result
        { connection_id := uuid0, status := Json.str "active",
          job_status := Json.str "failed", job_created_at := Json.num 1,
          job_updated_at := Json.num 2 }),
        [ApiRequest.health] ++ (get_connection_status srvC8w uuid0).2
          ++ [ApiRequest.connectionsSync uuid0] ++ [ApiRequest.jobsGet (Json.num 7)], 0) :=
  (C8_sleep_only_after_nonterminal srvC8w uuid0 (Json.num 7) (Json.num 99)
    stFailed (fun _ => Json.num 1) (fun _ => Json.num 2)
    (by decide) rfl rfl rfl rfl (fun _ => rfl)).1 rfl 1 (by omega)

end Airbyte
